import Mathlib

/-!
Shallow embedding of the Weather MCP server (TypeScript sources
`src/index.ts`, `src/sse-server.ts` and the SSE connection registry).

The resilient geocoding helper `geocodeCity` from `sse-server.ts` is embedded
as a function over an oracle `resp : Nat -> AttemptResponse` giving the
outcome of each HTTP attempt; the run records the result, the number of
attempts made, and the backoff waits (in milliseconds) performed between
attempts.  The session registry from the SSE server is embedded as an
association list with JavaScript `Map` semantics.  Machine floats of the
source are modelled as rationals.
-/

/-- Boolean test that the list `pat` occurs as a contiguous substring of `s`,
    mirroring JavaScript `String.prototype.includes`. -/
def charsContain (s pat : List Char) : Bool :=
  pat.isPrefixOf s ||
    (match s with
     | [] => false
     | _ :: rest => charsContain rest pat)

/-- JavaScript `s.includes(pat)` on strings. -/
def strContains (s pat : String) : Bool :=
  charsContain s.toList pat.toList

/-- JavaScript truthiness of an optional string (`undefined` and `""` are falsy). -/
def jsTruthyStr : Option String → Bool
  | none => false
  | some s => !(s == "")

/-- JavaScript truthiness of an optional number (`undefined` and `0` are falsy). -/
def jsTruthyNum : Option ℚ → Bool
  | none => false
  | some x => !(x == 0)

/-- JavaScript `a || b` on optional strings. -/
def jsOrStr (a b : Option String) : Option String :=
  if jsTruthyStr a then a else b

/-- One geocoding hit inside the `results` array of the geocoding response. -/
structure GeoResult where
  latitude : Option ℚ
  longitude : Option ℚ
  name : Option String
  country_code : Option String
  country : Option String
  timezone : Option String
deriving DecidableEq

/-- Parsed JSON body of the geocoding response. -/
structure GeoJson where
  results : Option (List GeoResult)
deriving DecidableEq

/-- How the body of one HTTP response parses. -/
inductive BodyParse
  | badJson
  | json (data : GeoJson)
deriving DecidableEq

/-- Outcome of one `fetch` attempt as seen by `geocodeCity`: either an HTTP
    response with a status, status text and body, or an abort (timeout). -/
inductive AttemptResponse
  | http (status : Nat) (statusText : String) (body : BodyParse)
  | abort (origMsg : String)
deriving DecidableEq

/-- The record returned by a successful `geocodeCity` call. -/
structure GeoOut where
  latitude : ℚ
  longitude : ℚ
  name : String
  country : Option String
  timezone : String
deriving DecidableEq

/-- Error message for HTTP status >= 500 in `geocodeCity`. -/
def serverErrorMsg (status : Nat) (statusText : String) : String :=
  "Geocoding API server error (" ++ toString status ++ "): " ++ statusText ++
    ". The service may be temporarily down."

/-- Error message for HTTP status 429 in `geocodeCity`. -/
def rateLimitMsg : String :=
  "Geocoding API rate limit exceeded. Please try again later."

/-- Error message for any other non-ok HTTP status in `geocodeCity`. -/
def apiErrorMsg (status : Nat) (statusText : String) : String :=
  "Geocoding API error (" ++ toString status ++ "): " ++ statusText

/-- Error message when the response body fails to parse as JSON. -/
def invalidJsonMsg : String :=
  "Geocoding API returned invalid JSON response. The service may be experiencing issues."

/-- Error message when the `results` array is missing or empty. -/
def cityNotFoundMsg (city : String) (country : Option String) : String :=
  "City not found: \"" ++ city ++ "\"" ++
    (if jsTruthyStr country then " in " ++ country.getD "" else "") ++
    ". Please check the spelling and try again."

/-- Error message when a geocoding hit lacks a required field. -/
def incompleteDataMsg : String :=
  "Geocoding API returned incomplete data. The service may be experiencing issues."

/-- Message replacing an abort error when all attempts are exhausted. -/
def timeoutMsg (timeoutMs : Nat) : String :=
  "Geocoding API request timed out after " ++ toString timeoutMs ++
    "ms. The service may be slow or down."

/-- An error raised inside the `try` block of one `geocodeCity` attempt:
    either a thrown `Error` with its message, or an `AbortError`. -/
inductive AttemptError
  | err (msg : String)
  | aborted (origMsg : String)
deriving DecidableEq

/-- The message of the originally thrown error (checked against the
    terminal substrings before any relabelling). -/
def AttemptError.origMsg : AttemptError → String
  | .err m => m
  | .aborted m => m

/-- The message after the `AbortError` relabelling step. -/
def AttemptError.effectiveMsg (e : AttemptError) (timeoutMs : Nat) : String :=
  match e with
  | .err m => m
  | .aborted _ => timeoutMsg timeoutMs

/-- The body of one `try` block of `geocodeCity` in `sse-server.ts`:
    classify the HTTP status, parse the body, check the `results` array and
    the required fields, and build the returned record. -/
def attemptOnce (city : String) (country : Option String) (r : AttemptResponse) :
    Except AttemptError GeoOut :=
  match r with
  | .abort m => .error (.aborted m)
  | .http status statusText body =>
    if !(200 ≤ status && status < 300) then
      if 500 ≤ status then .error (.err (serverErrorMsg status statusText))
      else if status = 429 then .error (.err rateLimitMsg)
      else .error (.err (apiErrorMsg status statusText))
    else
      match body with
      | .badJson => .error (.err invalidJsonMsg)
      | .json data =>
        match data.results with
        | none => .error (.err (cityNotFoundMsg city country))
        | some [] => .error (.err (cityNotFoundMsg city country))
        | some (result :: _) =>
          if !jsTruthyNum result.latitude || !jsTruthyNum result.longitude ||
             !jsTruthyStr result.name || !jsTruthyStr result.timezone then
            .error (.err incompleteDataMsg)
          else
            .ok { latitude := result.latitude.getD 0,
                  longitude := result.longitude.getD 0,
                  name := result.name.getD "",
                  country := jsOrStr result.country_code result.country,
                  timezone := result.timezone.getD "" }

/-- Observable outcome of a full `geocodeCity` run: the returned value or the
    thrown error message, the number of attempts performed, and the list of
    backoff waits (ms) slept between consecutive attempts. -/
structure RunResult where
  result : Except String GeoOut
  attemptsMade : Nat
  waits : List Nat

/-- The retry loop of `geocodeCity`, with the remaining loop iterations as
    fuel (`remaining = maxRetries - attempt` at every call).  Mirrors the
    `for` loop and its `catch` block: terminal errors (message containing
    `City not found` or `rate limit`) are rethrown at once; abort errors are
    relabelled as timeouts; otherwise, while `attempt < maxRetries - 1`, the
    loop sleeps `2 ^ attempt * 1000` ms and retries, and the last error is
    thrown when the budget is exhausted. -/
def geocodeLoop (resp : Nat → AttemptResponse) (city : String)
    (country : Option String) (maxRetries timeoutMs : Nat) :
    Nat → Nat → Option String → List Nat → RunResult
  | 0, attempt, lastError, waits =>
      { result := .error (lastError.getD "Geocoding failed after all retry attempts"),
        attemptsMade := attempt, waits := waits }
  | remaining + 1, attempt, _, waits =>
      match attemptOnce city country (resp attempt) with
      | .ok g => { result := .ok g, attemptsMade := attempt + 1, waits := waits }
      | .error e =>
          if strContains e.origMsg "City not found" ||
             strContains e.origMsg "rate limit" then
            { result := .error e.origMsg, attemptsMade := attempt + 1, waits := waits }
          else if attempt < maxRetries - 1 then
            geocodeLoop resp city country maxRetries timeoutMs remaining (attempt + 1)
              (some (e.effectiveMsg timeoutMs)) (waits ++ [2 ^ attempt * 1000])
          else
            { result := .error (e.effectiveMsg timeoutMs),
              attemptsMade := attempt + 1, waits := waits }

/-- The function `geocodeCity(city, country, maxRetries, timeoutMs)` of `sse-server.ts`,
    run against the attempt oracle `resp`.  The source defaults are
    `maxRetries = 3` and `timeoutMs = 10000`. -/
def geocodeCity (resp : Nat → AttemptResponse) (city : String)
    (country : Option String) (maxRetries timeoutMs : Nat) : RunResult :=
  geocodeLoop resp city country maxRetries timeoutMs maxRetries 0 none []

/-- A row of the SSE connection registry (`SSEConnection` in the SSE server
    with session management).  The transport and the protocol-server objects
    are opaque handles, modelled as natural-number tokens; timestamps are
    milliseconds as returned by `Date.getTime()`. -/
structure SSEConnection where
  sessionId : String
  transport : Nat
  server : Nat
  createdAt : Nat
  lastActivity : Nat
deriving DecidableEq

/-- The state of the `ConnectionRegistry` class: its `Map` of connections,
    as an association list in insertion order. -/
abbrev ConnectionRegistry := List (String × SSEConnection)

/-- JavaScript `Map.set`: update the value in place when the key is present,
    otherwise append a new entry. -/
def mapSet (m : ConnectionRegistry) (k : String) (v : SSEConnection) :
    ConnectionRegistry :=
  if m.any (fun p => p.1 == k) then
    m.map (fun p => if p.1 == k then (k, v) else p)
  else
    m ++ [(k, v)]

/-- JavaScript `Map.get`: the value stored under `k`, if any. -/
def mapGet (m : ConnectionRegistry) (k : String) : Option SSEConnection :=
  (m.find? (fun p => p.1 == k)).map Prod.snd

/-- Method `register(sessionId, transport, server)` of `ConnectionRegistry`: store an
    entry whose `createdAt` and `lastActivity` are both the current time. -/
def ConnectionRegistry.register (m : ConnectionRegistry) (sessionId : String)
    (transport server now : Nat) : ConnectionRegistry :=
  mapSet m sessionId
    { sessionId := sessionId, transport := transport, server := server,
      createdAt := now, lastActivity := now }

/-- Method `get(sessionId)` of `ConnectionRegistry`: return the entry if present, and as
    a side effect set its `lastActivity` to the current time.  Returns the
    (possibly touched) entry together with the updated registry state. -/
def ConnectionRegistry.get (m : ConnectionRegistry) (sessionId : String)
    (now : Nat) : Option SSEConnection × ConnectionRegistry :=
  match mapGet m sessionId with
  | none => (none, m)
  | some c =>
      (some { c with lastActivity := now },
       m.map (fun p =>
         if p.1 == sessionId then (p.1, { c with lastActivity := now }) else p))

/-- Method `remove(sessionId)` of `ConnectionRegistry`: JavaScript `Map.delete`. -/
def ConnectionRegistry.remove (m : ConnectionRegistry) (sessionId : String) :
    ConnectionRegistry :=
  m.filter (fun p => !(p.1 == sessionId))

/-- The hardcoded 30-minute idle threshold of `cleanupStaleConnections`. -/
def staleTimeoutMs : Nat := 30 * 60 * 1000

/-- Method `cleanupStaleConnections()` of `ConnectionRegistry`: remove every entry whose
    inactivity `now - lastActivity` strictly exceeds the idle threshold. -/
def ConnectionRegistry.cleanupStaleConnections (m : ConnectionRegistry)
    (now : Nat) : ConnectionRegistry :=
  m.filter (fun p => !decide (staleTimeoutMs < now - p.2.lastActivity))

/-- Method `shutdown()` of `ConnectionRegistry`: stop the sweep timer and clear the map. -/
def ConnectionRegistry.shutdown (_ : ConnectionRegistry) : ConnectionRegistry :=
  []

/-- Method `size()` of `ConnectionRegistry`. -/
def ConnectionRegistry.size (m : ConnectionRegistry) : Nat :=
  m.length

/-- Structured result returned by the `CallToolRequestSchema` handler: the
    text content and the `isError` flag (absent, hence falsy, on success). -/
structure CallToolResult where
  text : String
  isError : Bool
deriving DecidableEq

/-- Environment capturing the effectful steps inside the handler's `try`
    block: per tool name, the outcome of the zod argument parse (which may
    throw) and of the fetch pipeline (which may throw); exceptions are
    modelled as `Except.error` carrying the error message. -/
structure ToolEnv where
  parseArgs : String → Except String Unit
  runTool : String → Except String String

/-- The `try` block of the `CallToolRequestSchema` handler: dispatch on the
    tool name, parse the argument bag against the tool's schema, then run
    the tool's fetch pipeline; an unknown name throws `Unknown tool`. -/
def callToolBody (env : ToolEnv) (name : String) : Except String String :=
  if name = "get_current_weather" then
    (env.parseArgs name).bind fun _ => env.runTool name
  else if name = "get_weather_forecast" then
    (env.parseArgs name).bind fun _ => env.runTool name
  else if name = "get_weather_alerts" then
    (env.parseArgs name).bind fun _ => env.runTool name
  else if name = "get_growing_conditions" then
    (env.parseArgs name).bind fun _ => env.runTool name
  else if name = "get_historical_weather" then
    (env.parseArgs name).bind fun _ => env.runTool name
  else
    .error ("Unknown tool: " ++ name)

/-- The full `CallToolRequestSchema` handler: the `try` block wrapped in the
    `catch` that converts any thrown error into a structured result with
    message `Error: ...` and `isError: true`. -/
def handleCallTool (env : ToolEnv) (name : String) : CallToolResult :=
  match callToolBody env name with
  | .ok t => { text := t, isError := false }
  | .error m => { text := "Error: " ++ m, isError := true }

/-- The growing-degree-days computation inside `fetchGrowingConditions`:
    slice the first 24 hourly temperatures, average them, and clamp the
    excess over the base temperature at zero. -/
def growingDegreeDays (hourlyTemperature2m : List ℚ) (baseTemp : ℚ) : ℚ :=
  let hourlyTemps := hourlyTemperature2m.take 24
  let avgTemp := hourlyTemps.foldl (fun sum temp => sum + temp) 0 / (hourlyTemps.length : ℚ)
  max 0 (avgTemp - baseTemp)

/-! ### Helper lemmas -/

theorem charsContain_append (p r : List Char) : charsContain (p ++ r) p = true := by
  have h : p.isPrefixOf (p ++ r) = true := by
    simp [ List.isPrefixOf_iff_prefix]
  unfold charsContain
  rw [h, Bool.true_or]

theorem strContains_append_left (pre suf : String) :
    strContains (pre ++ suf) pre = true := by
  have h : (pre ++ suf).toList = pre.toList ++ suf.toList := by
    simp [String.toList]
  rw [strContains, h]
  exact charsContain_append _ _

theorem cityNotFoundMsg_contains (city : String) (country : Option String) :
    strContains (cityNotFoundMsg city country) "City not found" = true := by
  have h : cityNotFoundMsg city country =
      "City not found" ++
        (": \"" ++ (city ++ ("\"" ++
          ((if jsTruthyStr country then " in " ++ country.getD "" else "") ++
            ". Please check the spelling and try again.")))) := by
    rw [cityNotFoundMsg,
      show ("City not found: \"" : String) = "City not found" ++ ": \"" from rfl]
    simp only [String.append_assoc]
  rw [h]
  exact strContains_append_left _ _

/-- Exhaustion lemma for the retry loop: if every attempt fails with an
    error whose original message matches neither terminal substring, the
    loop performs all remaining attempts, sleeping `2 ^ attempt * 1000` ms
    after each attempt but the last, and surfaces the last attempt's
    (relabelled) error. -/
theorem geocodeLoop_all_retryable (resp : Nat → AttemptResponse) (city : String)
    (country : Option String) (maxRetries timeoutMs : Nat)
    (E : Nat → AttemptError)
    (hE : ∀ i, attemptOnce city country (resp i) = .error (E i))
    (hc1 : ∀ i, strContains (E i).origMsg "City not found" = false)
    (hc2 : ∀ i, strContains (E i).origMsg "rate limit" = false) :
    ∀ remaining attempt lastErr waits, 1 ≤ remaining →
      attempt + remaining = maxRetries →
      geocodeLoop resp city country maxRetries timeoutMs remaining attempt lastErr waits =
        { result := .error ((E (maxRetries - 1)).effectiveMsg timeoutMs),
          attemptsMade := maxRetries,
          waits := waits ++
            (List.range' attempt (remaining - 1)).map (fun i => 2 ^ i * 1000) } := by
  intro remaining
  induction remaining with
  | zero =>
      intro attempt lastErr waits h1 _
      exact absurd h1 (by omega)
  | succ r ih =>
      intro attempt lastErr waits _ h2
      rw [geocodeLoop, hE attempt]
      simp only [hc1 attempt, hc2 attempt, Bool.or_self, Bool.false_eq_true, if_false]
      cases r with
      | zero =>
          rw [if_neg (by omega : ¬ attempt < maxRetries - 1)]
          have hb : maxRetries = attempt + 1 := by omega
          simp [hb, List.range']
      | succ r2 =>
          rw [if_pos (by omega : attempt < maxRetries - 1)]
          rw [ih (attempt + 1) (some ((E attempt).effectiveMsg timeoutMs))
              (waits ++ [2 ^ attempt * 1000]) (by omega) (by omega)]
          simp [List.range'_succ]

theorem mapGet_mapSet_present (m : ConnectionRegistry) (k : String) (v : SSEConnection)
    (h : m.any (fun p => p.1 == k) = true) :
    mapGet (m.map (fun p => if p.1 == k then (k, v) else p)) k = some v := by
  induction m with
  | nil => simp at h
  | cons p t ih =>
      rw [List.map_cons]
      by_cases hp : (p.1 == k) = true
      · rw [if_pos hp, mapGet, List.find?_cons_of_pos _ (by simp)]
        rfl
      · rw [if_neg hp, mapGet, List.find?_cons_of_neg _ (by simpa using hp)]
        exact ih (by simpa [List.any_cons, hp] using h)

theorem mapGet_append_absent (m : ConnectionRegistry) (k : String) (v : SSEConnection)
    (h : m.any (fun p => p.1 == k) = false) :
    mapGet (m ++ [(k, v)]) k = some v := by
  induction m with
  | nil =>
      rw [List.nil_append, mapGet, List.find?_cons_of_pos _ (by simp)]
      rfl
  | cons p t ih =>
      rw [List.any_cons] at h
      have h2 : (p.1 == k) = false ∧ t.any (fun p => p.1 == k) = false := by
        constructor <;> [skip; skip] <;>
          · revert h
            cases hb : (p.1 == k) <;> cases ht : t.any (fun p => p.1 == k) <;> simp
      rw [List.cons_append, mapGet,
        List.find?_cons_of_neg _ (by simp [h2.1])]
      exact ih h2.2

theorem mapGet_mapSet_self (m : ConnectionRegistry) (k : String) (v : SSEConnection) :
    mapGet (mapSet m k v) k = some v := by
  rw [mapSet]
  by_cases h : m.any (fun p => p.1 == k) = true
  · rw [if_pos h]
    exact mapGet_mapSet_present m k v h
  · rw [if_neg h]
    have h2 : m.any (fun p => p.1 == k) = false := by
      cases hb : m.any (fun p => p.1 == k)
      · rfl
      · exact absurd hb h
    exact mapGet_append_absent m k v h2

theorem mapGet_map_touch (m : ConnectionRegistry) (k : String) (c0 c2 : SSEConnection)
    (h : mapGet m k = some c0) :
    mapGet (m.map (fun p => if p.1 == k then (p.1, c2) else p)) k = some c2 := by
  induction m with
  | nil => simp [mapGet] at h
  | cons p t ih =>
      rw [List.map_cons]
      by_cases hp : (p.1 == k) = true
      · rw [if_pos hp, mapGet, List.find?_cons_of_pos _ (by exact hp)]
        rfl
      · rw [if_neg hp, mapGet, List.find?_cons_of_neg _ (by simpa using hp)]
        have ht : mapGet t k = some c0 := by
          rw [mapGet, List.find?_cons_of_neg _ (by simpa using hp)] at h
          exact h
        exact ih ht

theorem any_of_mapGet_some (m : ConnectionRegistry) (k : String) (e : SSEConnection)
    (h : mapGet m k = some e) : m.any (fun p => p.1 == k) = true := by
  induction m with
  | nil => simp [mapGet] at h
  | cons p t ih =>
      by_cases hp : (p.1 == k) = true
      · simp [List.any_cons, hp]
      · rw [mapGet, List.find?_cons_of_neg _ (by simpa using hp)] at h
        simpa [List.any_cons, hp] using ih h

theorem mapGet_eq_none_of_not_mem_keys (m : ConnectionRegistry) (k : String)
    (h : k ∉ m.map Prod.fst) : mapGet m k = none := by
  induction m with
  | nil => rfl
  | cons p t ih =>
      have h1 : k ≠ p.1 := by
        intro hh
        exact h (by rw [List.map_cons, hh]; exact List.mem_cons_self _ _)
      have h2 : k ∉ t.map Prod.fst := by
        intro hh
        exact h (by rw [List.map_cons]; exact List.mem_cons_of_mem _ hh)
      rw [mapGet, List.find?_cons_of_neg _ (by
        simp only [beq_iff_eq]
        exact fun hh => h1 hh.symm)]
      exact ih h2

theorem mapGet_filter_of_nodup (m : ConnectionRegistry)
    (keep : String × SSEConnection → Bool) (k : String) (e : SSEConnection)
    (hnd : (m.map Prod.fst).Nodup) (h : mapGet m k = some e) :
    mapGet (m.filter keep) k = if keep (k, e) then some e else none := by
  induction m with
  | nil => simp [mapGet] at h
  | cons p t ih =>
      rw [List.map_cons, List.nodup_cons] at hnd
      obtain ⟨hp1, hnd2⟩ := hnd
      by_cases hp : (p.1 == k) = true
      · have hk : p.1 = k := by simpa [beq_iff_eq] using hp
        have he : p.2 = e := by
          rw [mapGet, List.find?_cons_of_pos _ (by exact hp)] at h
          simpa using h
        rw [List.filter_cons]
        by_cases hkeep : keep p = true
        · rw [if_pos hkeep, mapGet, List.find?_cons_of_pos _ (by exact hp)]
          have hke : keep (k, e) = true := by
            rw [← hk, ← he]
            exact hkeep
          rw [if_pos hke]
          simpa using he
        · have hkeepf : keep p = false := by simpa using hkeep
          rw [if_neg hkeep]
          have hke : keep (k, e) = false := by
            rw [← hk, ← he]
            exact hkeepf
          rw [hke]
          simp only [Bool.false_eq_true, if_false]
          apply mapGet_eq_none_of_not_mem_keys
          intro hmem
          apply hp1
          rw [hk]
          obtain ⟨q, hq, hqk⟩ := List.mem_map.mp hmem
          exact List.mem_map.mpr ⟨q, List.mem_of_mem_filter hq, hqk⟩
      · have ht : mapGet t k = some e := by
          rw [mapGet, List.find?_cons_of_neg _ (by simpa using hp)] at h
          exact h
        rw [List.filter_cons]
        by_cases hkeep : keep p = true
        · rw [if_pos hkeep, mapGet, List.find?_cons_of_neg _ (by simpa using hp)]
          exact ih hnd2 ht
        · rw [if_neg hkeep]
          exact ih hnd2 ht

/-- The exhaustion lemma applied to a full `geocodeCity` run. -/
theorem geocodeCity_all_retryable (resp : Nat → AttemptResponse) (city : String)
    (country : Option String) (maxRetries timeoutMs : Nat)
    (E : Nat → AttemptError)
    (hE : ∀ i, attemptOnce city country (resp i) = .error (E i))
    (hc1 : ∀ i, strContains (E i).origMsg "City not found" = false)
    (hc2 : ∀ i, strContains (E i).origMsg "rate limit" = false)
    (h1 : 1 ≤ maxRetries) :
    geocodeCity resp city country maxRetries timeoutMs =
      { result := .error ((E (maxRetries - 1)).effectiveMsg timeoutMs),
        attemptsMade := maxRetries,
        waits := (List.range (maxRetries - 1)).map (fun i => 2 ^ i * 1000) } := by
  rw [geocodeCity,
    geocodeLoop_all_retryable resp city country maxRetries timeoutMs E hE hc1 hc2
      maxRetries 0 none [] h1 (by omega)]
  simp [List.range_eq_range']

/-! ### Claim theorems: the resilient geocoding helper -/

/-- Claim C1, counterexample: for an HTTP 404 response, `geocodeCity` does
    NOT surface the error immediately — with the default budget of 3 it
    performs 3 attempts with backoff waits of 1000 ms and 2000 ms, because
    the generic 4xx error message matches neither terminal substring. -/
theorem geocode_404_retried_counterexample :
    (geocodeCity (fun _ => .http 404 "Not Found" .badJson) "Berlin" none 3 10000).attemptsMade = 3 ∧
    (geocodeCity (fun _ => .http 404 "Not Found" .badJson) "Berlin" none 3 10000).waits = [1000, 2000] ∧
    ¬ ((geocodeCity (fun _ => .http 404 "Not Found" .badJson) "Berlin" none 3 10000).attemptsMade = 1 ∧
       (geocodeCity (fun _ => .http 404 "Not Found" .badJson) "Berlin" none 3 10000).waits = []) :=
  ⟨by decide, by decide, by decide⟩

/-- Claim C1, amended: a 4xx status other than 429 is treated as a
    retryable failure: when every attempt returns it, `geocodeCity` retries
    with exponential backoff, makes exactly `maxRetries` attempts, and then
    surfaces the generic API error. -/
theorem geocode_4xx_retried (city : String) (country : Option String)
    (maxRetries timeoutMs status : Nat) (st : String) (body : BodyParse)
    (h1 : 1 ≤ maxRetries) (h4 : 400 ≤ status) (h5 : status < 500) (h9 : status ≠ 429)
    (hc1 : strContains (apiErrorMsg status st) "City not found" = false)
    (hc2 : strContains (apiErrorMsg status st) "rate limit" = false) :
    geocodeCity (fun _ => .http status st body) city country maxRetries timeoutMs =
      { result := .error (apiErrorMsg status st),
        attemptsMade := maxRetries,
        waits := (List.range (maxRetries - 1)).map (fun attempt => 2 ^ attempt * 1000) } := by
  have d1 : decide (status < 300) = false := decide_eq_false (by omega)
  have hE0 : attemptOnce city country (.http status st body) =
      .error (.err (apiErrorMsg status st)) := by
    simp [attemptOnce, d1, show ¬ 500 ≤ status from by omega, h9]
  have h := geocodeCity_all_retryable (fun _ => .http status st body) city country maxRetries
    timeoutMs (fun _ => .err (apiErrorMsg status st)) (fun _ => hE0)
    (fun _ => hc1) (fun _ => hc2) h1
  simpa [AttemptError.effectiveMsg] using h

/-- Witness for the amended Claim C1 at 404 / default budget. -/
theorem geocode_4xx_retried_witness :
    geocodeCity (fun _ => .http 404 "Not Found" .badJson) "Berlin" none 3 10000 =
      { result := .error (apiErrorMsg 404 "Not Found"),
        attemptsMade := 3, waits := [1000, 2000] } := by
  rw [geocode_4xx_retried "Berlin" none 3 10000 404 "Not Found" .badJson (by omega) (by omega)
      (by omega) (by omega) (by decide) (by decide)]
  congr 1

/-- Claim C2, counterexample: a response whose body fails to parse as JSON
    is NOT surfaced immediately — with the default budget of 3 the run makes
    3 attempts with backoff, because the invalid-JSON message matches
    neither terminal substring. -/
theorem geocode_invalid_json_counterexample :
    (geocodeCity (fun _ => .http 200 "OK" .badJson) "Berlin" none 3 10000).attemptsMade = 3 ∧
    (geocodeCity (fun _ => .http 200 "OK" .badJson) "Berlin" none 3 10000).waits = [1000, 2000] ∧
    ¬ ((geocodeCity (fun _ => .http 200 "OK" .badJson) "Berlin" none 3 10000).attemptsMade = 1 ∧
       (geocodeCity (fun _ => .http 200 "OK" .badJson) "Berlin" none 3 10000).waits = []) :=
  ⟨by decide, by decide, by decide⟩

/-- Claim C2, amended: a malformed JSON body is treated as a retryable
    failure: when every attempt returns HTTP 200 with an unparsable body,
    `geocodeCity` retries with exponential backoff, makes exactly
    `maxRetries` attempts, and then surfaces the invalid-data error. -/
theorem geocode_invalid_json_retried (city : String) (country : Option String)
    (maxRetries timeoutMs : Nat) (st : String)
    (h1 : 1 ≤ maxRetries) :
    geocodeCity (fun _ => .http 200 st .badJson) city country maxRetries timeoutMs =
      { result := .error invalidJsonMsg,
        attemptsMade := maxRetries,
        waits := (List.range (maxRetries - 1)).map (fun attempt => 2 ^ attempt * 1000) } := by
  have hj1 : strContains (AttemptError.err invalidJsonMsg).origMsg "City not found" = false := by
    decide
  have hj2 : strContains (AttemptError.err invalidJsonMsg).origMsg "rate limit" = false := by
    decide
  have h := geocodeCity_all_retryable (fun _ => .http 200 st .badJson) city country maxRetries
    timeoutMs (fun _ => .err invalidJsonMsg) (fun _ => rfl)
    (fun _ => hj1) (fun _ => hj2) h1
  simpa [AttemptError.effectiveMsg] using h

/-- Witness for the amended Claim C2 at the default budget. -/
theorem geocode_invalid_json_retried_witness :
    geocodeCity (fun _ => .http 200 "OK" .badJson) "Berlin" none 3 10000 =
      { result := .error invalidJsonMsg,
        attemptsMade := 3, waits := [1000, 2000] } := by
  rw [geocode_invalid_json_retried "Berlin" none 3 10000 "OK" (by omega)]
  congr 1

/-- Claim C3: when every attempt fails with HTTP 503, `geocodeCity` makes
    exactly `maxRetries` attempts, sleeping `2 ^ attempt * 1000` ms after
    each attempt but the last, and then surfaces the last server error. -/
theorem geocode_always_503_exhausts_retries (city : String) (country : Option String)
    (maxRetries timeoutMs : Nat) (st : String) (body : BodyParse)
    (h1 : 1 ≤ maxRetries)
    (hc1 : strContains (serverErrorMsg 503 st) "City not found" = false)
    (hc2 : strContains (serverErrorMsg 503 st) "rate limit" = false) :
    geocodeCity (fun _ => .http 503 st body) city country maxRetries timeoutMs =
      { result := .error (serverErrorMsg 503 st),
        attemptsMade := maxRetries,
        waits := (List.range (maxRetries - 1)).map (fun attempt => 2 ^ attempt * 1000) } := by
  have h := geocodeCity_all_retryable (fun _ => .http 503 st body) city country maxRetries
    timeoutMs (fun _ => .err (serverErrorMsg 503 st)) (fun _ => rfl)
    (fun _ => hc1) (fun _ => hc2) h1
  simpa [AttemptError.effectiveMsg] using h

/-- Witness for Claim C3: three attempts, waits of 1000 ms and 2000 ms. -/
theorem geocode_always_503_witness :
    geocodeCity (fun _ => .http 503 "Service Unavailable" .badJson) "Berlin" none 3 10000 =
      { result := .error (serverErrorMsg 503 "Service Unavailable"),
        attemptsMade := 3, waits := [1000, 2000] } := by
  rw [geocode_always_503_exhausts_retries "Berlin" none 3 10000 "Service Unavailable" .badJson
      (by omega) (by decide) (by decide)]
  congr 1

/-- Claim C4: an HTTP 429 on the first attempt makes `geocodeCity` surface
    the rate-limit error at once: exactly 1 attempt, no backoff wait,
    regardless of the remaining retry budget. -/
theorem geocode_429_single_attempt (resp : Nat → AttemptResponse) (city : String)
    (country : Option String) (maxRetries timeoutMs : Nat) (st : String) (body : BodyParse)
    (h1 : 1 ≤ maxRetries) (h0 : resp 0 = .http 429 st body) :
    geocodeCity resp city country maxRetries timeoutMs =
      { result := .error rateLimitMsg, attemptsMade := 1, waits := [] } := by
  obtain ⟨m, rfl⟩ : ∃ m, maxRetries = m + 1 := ⟨maxRetries - 1, by omega⟩
  have ha : attemptOnce city country (resp 0) = .error (.err rateLimitMsg) := by
    rw [h0]
    rfl
  rw [geocodeCity, geocodeLoop, ha]
  simp [AttemptError.origMsg, show strContains rateLimitMsg "rate limit" = true from by decide]

/-- Witness for Claim C4. -/
theorem geocode_429_witness :
    geocodeCity (fun _ => .http 429 "Too Many Requests" .badJson) "Berlin" none 3 10000 =
      { result := .error rateLimitMsg, attemptsMade := 1, waits := [] } :=
  geocode_429_single_attempt _ "Berlin" none 3 10000 "Too Many Requests" .badJson
    (by omega) rfl

/-- Claim C5: an HTTP 200 response whose `results` array is empty or
    missing makes `geocodeCity` surface the `City not found` error at once:
    exactly 1 attempt, no retry, no backoff wait. -/
theorem geocode_empty_results_terminal (resp : Nat → AttemptResponse) (city : String)
    (country : Option String) (maxRetries timeoutMs : Nat) (st : String) (g : GeoJson)
    (h1 : 1 ≤ maxRetries) (h0 : resp 0 = .http 200 st (.json g))
    (hres : g.results = none ∨ g.results = some []) :
    geocodeCity resp city country maxRetries timeoutMs =
      { result := .error (cityNotFoundMsg city country), attemptsMade := 1, waits := [] } := by
  obtain ⟨m, rfl⟩ : ∃ m, maxRetries = m + 1 := ⟨maxRetries - 1, by omega⟩
  have ha : attemptOnce city country (resp 0) =
      .error (.err (cityNotFoundMsg city country)) := by
    rw [h0]
    rcases hres with h | h <;> simp [attemptOnce, h]
  rw [geocodeCity, geocodeLoop, ha]
  simp [AttemptError.origMsg, cityNotFoundMsg_contains]

/-- Witness for Claim C5. -/
theorem geocode_empty_results_witness :
    geocodeCity (fun _ => .http 200 "OK" (.json ⟨some []⟩)) "Atlantis" none 3 10000 =
      { result := .error (cityNotFoundMsg "Atlantis" none), attemptsMade := 1, waits := [] } :=
  geocode_empty_results_terminal _ "Atlantis" none 3 10000 "OK" ⟨some []⟩
    (by omega) rfl (Or.inr rfl)

/-! ### Claim theorems: the session registry -/

/-- Claim C6, counterexample: registering an already-present session id
    succeeds and silently replaces the stored entry (`Map.set` semantics):
    the registry keeps size 1 and afterwards holds the new entry, not the
    originally registered one. -/
theorem register_duplicate_counterexample :
    mapGet (ConnectionRegistry.register
        (ConnectionRegistry.register [] "s1" 1 1 100) "s1" 2 2 200) "s1" =
      some { sessionId := "s1", transport := 2, server := 2,
             createdAt := 200, lastActivity := 200 } ∧
    (ConnectionRegistry.register
        (ConnectionRegistry.register [] "s1" 1 1 100) "s1" 2 2 200).length = 1 ∧
    ¬ mapGet (ConnectionRegistry.register
        (ConnectionRegistry.register [] "s1" 1 1 100) "s1" 2 2 200) "s1" =
      some { sessionId := "s1", transport := 1, server := 1,
             createdAt := 100, lastActivity := 100 } :=
  ⟨by decide, by decide, by decide⟩

/-- Claim C6, amended: `register` on an id already present in the registry
    succeeds and silently replaces the existing entry, resetting both
    timestamps to now; the registry size does not change. -/
theorem register_existing_id_replaces (m : ConnectionRegistry) (id : String)
    (t s now : Nat) (e : SSEConnection) (h : mapGet m id = some e) :
    mapGet (ConnectionRegistry.register m id t s now) id =
      some { sessionId := id, transport := t, server := s,
             createdAt := now, lastActivity := now } ∧
    (ConnectionRegistry.register m id t s now).length = m.length := by
  refine ⟨mapGet_mapSet_self m id _, ?_⟩
  rw [ConnectionRegistry.register, mapSet, if_pos (any_of_mapGet_some m id e h),
    List.length_map]

/-- Witness for the amended Claim C6. -/
theorem register_existing_id_replaces_witness :
    mapGet (ConnectionRegistry.register
        [("s1", { sessionId := "s1", transport := 1, server := 1,
                  createdAt := 100, lastActivity := 100 })] "s1" 2 2 200) "s1" =
      some { sessionId := "s1", transport := 2, server := 2,
             createdAt := 200, lastActivity := 200 } ∧
    (ConnectionRegistry.register
        [("s1", { sessionId := "s1", transport := 1, server := 1,
                  createdAt := 100, lastActivity := 100 })] "s1" 2 2 200).length = 1 :=
  register_existing_id_replaces
    [("s1", { sessionId := "s1", transport := 1, server := 1,
              createdAt := 100, lastActivity := 100 })] "s1" 2 2 200
    { sessionId := "s1", transport := 1, server := 1,
      createdAt := 100, lastActivity := 100 } (by decide)

/-- Claim C7: the sweep removes every entry whose inactivity exceeds the
    30-minute idle threshold and keeps every entry within it; a lookup of a
    removed id afterwards reports not-found. -/
theorem cleanup_removes_exactly_stale (m : ConnectionRegistry) (now now2 : Nat)
    (id : String) (e : SSEConnection)
    (hnd : (m.map Prod.fst).Nodup) (hget : mapGet m id = some e) :
    (staleTimeoutMs < now - e.lastActivity →
        mapGet (ConnectionRegistry.cleanupStaleConnections m now) id = none ∧
        (ConnectionRegistry.get
          (ConnectionRegistry.cleanupStaleConnections m now) id now2).1 = none) ∧
    (¬ staleTimeoutMs < now - e.lastActivity →
        mapGet (ConnectionRegistry.cleanupStaleConnections m now) id = some e) := by
  have hfilter := mapGet_filter_of_nodup m
      (fun p => !decide (staleTimeoutMs < now - p.2.lastActivity)) id e hnd hget
  constructor
  · intro hstale
    have h1 : mapGet (ConnectionRegistry.cleanupStaleConnections m now) id = none := by
      rw [ConnectionRegistry.cleanupStaleConnections, hfilter]
      simp [hstale]
    refine ⟨h1, ?_⟩
    simp [ConnectionRegistry.get, h1]
  · intro hfresh
    rw [ConnectionRegistry.cleanupStaleConnections, hfilter]
    simp [hfresh]

/-- Witness for Claim C7: a stale entry is swept and no longer found. -/
theorem cleanup_removes_exactly_stale_witness :
    mapGet (ConnectionRegistry.cleanupStaleConnections
        [("s1", { sessionId := "s1", transport := 1, server := 1,
                  createdAt := 0, lastActivity := 0 }),
         ("s2", { sessionId := "s2", transport := 2, server := 2,
                  createdAt := 0, lastActivity := 100000 })] 1860001) "s1" = none ∧
    (ConnectionRegistry.get (ConnectionRegistry.cleanupStaleConnections
        [("s1", { sessionId := "s1", transport := 1, server := 1,
                  createdAt := 0, lastActivity := 0 }),
         ("s2", { sessionId := "s2", transport := 2, server := 2,
                  createdAt := 0, lastActivity := 100000 })] 1860001) "s1" 1860002).1 = none :=
  (cleanup_removes_exactly_stale
      [("s1", { sessionId := "s1", transport := 1, server := 1,
                createdAt := 0, lastActivity := 0 }),
       ("s2", { sessionId := "s2", transport := 2, server := 2,
                createdAt := 0, lastActivity := 100000 })] 1860001 1860002 "s1"
      { sessionId := "s1", transport := 1, server := 1,
        createdAt := 0, lastActivity := 0 } (by decide) (by decide)).1 (by decide)

/-- Claim C8: `register` immediately followed by `get` returns the entry
    that was registered, with its last-activity touched to the current
    time (both in the returned entry and in the stored registry state), a
    value at least the registration timestamp. -/
theorem register_then_lookup (m : ConnectionRegistry) (id : String)
    (t s regTime now : Nat) (h : regTime ≤ now) :
    (ConnectionRegistry.get (ConnectionRegistry.register m id t s regTime) id now).1 =
      some { sessionId := id, transport := t, server := s,
             createdAt := regTime, lastActivity := now } ∧
    mapGet (ConnectionRegistry.get
        (ConnectionRegistry.register m id t s regTime) id now).2 id =
      some { sessionId := id, transport := t, server := s,
             createdAt := regTime, lastActivity := now } ∧
    regTime ≤ now := by
  have h0 : mapGet (ConnectionRegistry.register m id t s regTime) id =
      some { sessionId := id, transport := t, server := s,
             createdAt := regTime, lastActivity := regTime } :=
    mapGet_mapSet_self m id _
  refine ⟨?_, ?_, h⟩
  · simp [ConnectionRegistry.get, h0]
  · simp only [ConnectionRegistry.get, h0]
    exact mapGet_map_touch _ id _ _ h0

/-- Witness for Claim C8. -/
theorem register_then_lookup_witness :
    (ConnectionRegistry.get (ConnectionRegistry.register [] "s1" 7 8 100) "s1" 150).1 =
      some { sessionId := "s1", transport := 7, server := 8,
             createdAt := 100, lastActivity := 150 } ∧
    mapGet (ConnectionRegistry.get
        (ConnectionRegistry.register [] "s1" 7 8 100) "s1" 150).2 "s1" =
      some { sessionId := "s1", transport := 7, server := 8,
             createdAt := 100, lastActivity := 150 } ∧
    (100 : Nat) ≤ 150 :=
  register_then_lookup [] "s1" 7 8 100 150 (by omega)

/-! ### Claim theorems: tool-invocation boundary and growing degree days -/

/-- Claim C9: any failure raised inside the tool-invocation handler
    (unknown tool name, argument-schema rejection, or any upstream error)
    is caught at the boundary and converted into a structured result whose
    text is the human-readable `Error: ...` message and whose `isError`
    flag is set; the handler itself is a total function. -/
theorem callTool_failure_recovered (env : ToolEnv) (name m : String)
    (h : callToolBody env name = .error m) :
    handleCallTool env name = { text := "Error: " ++ m, isError := true } := by
  simp [handleCallTool, h]

/-- Witness for Claim C9: a failing fetch pipeline is converted into a
    structured error result. -/
theorem callTool_failure_recovered_witness :
    handleCallTool
        { parseArgs := fun _ => .ok (), runTool := fun _ => .error "boom" }
        "get_current_weather" =
      { text := "Error: " ++ "boom", isError := true } :=
  callTool_failure_recovered
    { parseArgs := fun _ => .ok (), runTool := fun _ => .error "boom" }
    "get_current_weather" "boom" rfl

/-- Claim C10: the growing-degree-days value equals
    `max 0 (average of the first 24 hourly temperatures - base_temp)` and is
    never negative, even when the base temperature exceeds the average. -/
theorem growingDegreeDays_spec (hourly : List ℚ) (baseTemp : ℚ)
    (h : hourly ≠ []) :
    growingDegreeDays hourly baseTemp =
      max 0 ((hourly.take 24).sum / ((hourly.take 24).length : ℚ) - baseTemp) ∧
    0 ≤ growingDegreeDays hourly baseTemp := by
  have hfold : ∀ (l : List ℚ) (a : ℚ),
      l.foldl (fun sum temp => sum + temp) a = a + l.sum := by
    intro l
    induction l with
    | nil =>
        intro a
        simp
    | cons x rest ih =>
        intro a
        rw [List.foldl_cons, ih, List.sum_cons]
        ring
  have heq : growingDegreeDays hourly baseTemp =
      max 0 ((hourly.take 24).sum / ((hourly.take 24).length : ℚ) - baseTemp) := by
    simp only [growingDegreeDays]
    rw [hfold, zero_add]
  refine ⟨heq, ?_⟩
  rw [heq]
  exact le_max_left _ _

/-- Witness for Claim C10: a base temperature above the average clamps the
    value at zero (and the formula holds). -/
theorem growingDegreeDays_spec_witness :
    growingDegreeDays [5, 15] 20 =
      max 0 ((([5, 15] : List ℚ).take 24).sum /
        ((([5, 15] : List ℚ).take 24).length : ℚ) - 20) ∧
    0 ≤ growingDegreeDays [5, 15] 20 :=
  growingDegreeDays_spec [5, 15] 20 (by simp)
